import Mathlib

/-!
# Verification of the payment-processing microservice core

Shallow embedding of the Go payment service
(`internal/service/payment_service.go`, `internal/repository/payment_repository.go`,
`internal/model/payment.go`) and proofs of the specification claims about it.

Modelling conventions:
* Go `error` values created by the service and repository layers are embedded as
  the inductive `ServiceError`, one constructor per distinct error value the code
  can produce (plus `storageFault` for errors the external store may raise).
* The global random source used by `simulatePaymentProcessing` is embedded as an
  explicit input: the random draw for each attempt is supplied as a function
  `draws : Nat → ℚ` (attempt index ↦ drawn value in `[0,1)`).
* `time.Sleep` backoff calls are not effectful in the embedding; the retry loop
  instead records the list of backoff durations (in milliseconds) it would sleep,
  so timing claims are statable.
* The repository interface `PaymentRepository` is embedded as a structure of
  state-passing functions over an abstract store state `σ`, exactly mirroring the
  Go interface the service is programmed against; the concrete GORM/Postgres
  repository is embedded as `paymentRepo` over an in-memory relational state `DB`
  that enforces the schema's unique index on `idempotency_key`.
-/

set_option autoImplicit false

namespace PaymentService

/-- Service configuration constants from `payment_service.go`. -/
def MaxRetries : Nat := 3

/-- `FailureRate = 0.3`: probability threshold for a simulated failure,
written as the normalized rational `3/10` (see `FailureRate_eq_div`). -/
def FailureRate : ℚ := ⟨3, 10, by decide, by decide⟩

/-- `MinAmount = 1`. -/
def MinAmount : Int := 1

/-- `MaxAmount = 1000000`. -/
def MaxAmount : Int := 1000000

/-- `model.PaymentStatus`: the three status constants of `payment_model.go`,
modelled as a closed enumeration. -/
inductive PaymentStatus where
  | StatusInitiated
  | StatusSuccess
  | StatusFailed
  deriving DecidableEq, Repr

/-- `uuid.UUID` from github.com/google/uuid, modelled by its 128-bit numeric
value (a `Nat`); `uuid.Nil` is the zero value. -/
structure UUID where
  val : Nat
  deriving DecidableEq, Repr

/-- `uuid.Nil`. -/
def UUID.nilUUID : UUID := ⟨0⟩

/-- `model.Payment` (timestamps modelled as a logical clock `Nat`). -/
structure Payment where
  ID : UUID
  UserID : String
  Amount : Int
  Currency : String
  Status : PaymentStatus
  IdempotencyKey : String
  RetryCount : Nat
  FailureReason : String
  CreatedAt : Nat
  UpdatedAt : Nat
  deriving DecidableEq, Repr

/-- `model.CreatePaymentRequest`. -/
structure CreatePaymentRequest where
  IdempotencyKey : String
  Amount : Int
  Currency : String
  UserID : String
  deriving DecidableEq, Repr

/-- `model.PaymentResponse` (`PaymentID` is `payment.ID.String()` in Go;
since `UUID.String` is injective we keep the `UUID` value). -/
structure PaymentResponse where
  PaymentID : UUID
  Status : PaymentStatus
  Amount : Int
  Currency : String
  CreatedAt : Nat
  deriving DecidableEq, Repr

/-- The distinct Go `error` values produced by the service and repository
layers, plus `storageFault` for any other error the external store can raise
(connection loss, non-duplicate constraint errors, ...). -/
inductive ServiceError where
  /-- a validation error returned by `validatePaymentRequest`, with its message -/
  | validation (msg : String)
  /-- `errors.New("invalid payment ID format")` from `GetPayment` -/
  | invalidIDFormat
  /-- `errors.New("payment not found")` from `paymentRepository.GetByID` -/
  | notFound
  /-- the store's uniqueness-constraint violation on `idempotency_key` -/
  | duplicateKey
  /-- any other storage-layer error, with its message -/
  | storageFault (msg : String)
  deriving DecidableEq, Repr

/-- `paymentService.validatePaymentRequest` from `payment_service.go`
(lines 147–169): the five rules, checked in source order, first violation
reported. -/
def validatePaymentRequest (req : CreatePaymentRequest) : Option ServiceError :=
  if req.Amount < MinAmount then
    some (.validation ("amount must be at least " ++ toString MinAmount))
  else if req.Amount > MaxAmount then
    some (.validation ("amount cannot exceed " ++ toString MaxAmount))
  else if req.Currency.length ≠ 3 then
    some (.validation "currency must be a 3-letter ISO code")
  else if req.IdempotencyKey = "" then
    some (.validation "idempotency key is required")
  else if req.UserID = "" then
    some (.validation "user ID is required")
  else
    none

/-- `paymentService.toPaymentResponse` from `payment_service.go`. -/
def toPaymentResponse (payment : Payment) : PaymentResponse :=
  { PaymentID := payment.ID
    Status := payment.Status
    Amount := payment.Amount
    Currency := payment.Currency
    CreatedAt := payment.CreatedAt }

/-- `paymentService.simulatePaymentProcessing`: fails with
"payment gateway timeout" exactly when the random draw is below `FailureRate`.
The draw is the explicit embedding of `rand.Float64()`; the processing
`time.Sleep` has no observable effect and is omitted. -/
def simulatePaymentProcessing (draw : ℚ) : Except String Unit :=
  if draw < FailureRate then .error "payment gateway timeout" else .ok ()

/-- `repository.PaymentRepository`: the interface the service is programmed
against, as state-passing functions over a store state `σ`. Each operation
returns its Go result (with `error` embedded in `Except`/`Option` exactly as
the Go signatures distinguish them) together with the successor store state.
`create` returns the stored record because GORM fills in the generated `ID`
and timestamps on the passed struct. -/
structure PaymentRepository (σ : Type) where
  create : Payment → σ → Except ServiceError Payment × σ
  getByID : UUID → σ → Except ServiceError Payment × σ
  getByIdempotencyKey : String → σ → Except ServiceError (Option Payment) × σ
  update : Payment → σ → Except ServiceError Unit × σ

/-- Result of one run of `processPaymentWithRetry`: the final in-memory
`payment` struct, the final store state, the loop's return value
(`none` = Go `nil`, `some msg` = the exhaustion error), and the list of
backoff sleeps (milliseconds) performed, in order. -/
structure RetryOut (σ : Type) where
  payment : Payment
  store : σ
  result : Option String
  sleeps : List Nat
  deriving Repr

/-- The body of the `for i := 0; i < MaxRetries; i++` loop of
`paymentService.processPaymentWithRetry`, as fuelled recursion (`fuel` is the
number of remaining iterations, so the loop index is `i = MaxRetries - fuel`).
When the fuel runs out the loop falls through to
`fmt.Errorf("payment failed after %d retries: %v", MaxRetries, lastErr)`.
On a successful attempt the record is marked `StatusSuccess` and
`s.repo.Update(payment)` is invoked with its error value discarded, exactly as
in the source. -/
def retryLoop {σ : Type} (repo : PaymentRepository σ) (draws : Nat → ℚ)
    (i : Nat) (fuel : Nat) (lastErr : String) (payment : Payment) (s : σ)
    (sleeps : List Nat) : RetryOut σ :=
  match fuel with
  | 0 =>
      ⟨payment, s,
        some ("payment failed after " ++ toString MaxRetries ++ " retries: " ++ lastErr),
        sleeps⟩
  | fuel' + 1 =>
      let p1 := { payment with RetryCount := i + 1 }
      match simulatePaymentProcessing (draws i) with
      | .error msg =>
          let sleeps' := if i < MaxRetries - 1 then sleeps ++ [(i + 1) * 100] else sleeps
          retryLoop repo draws (i + 1) fuel' msg p1 s sleeps'
      | .ok _ =>
          let p2 := { p1 with Status := .StatusSuccess }
          let u := repo.update p2 s
          ⟨p2, u.2, none, sleeps⟩

/-- `paymentService.processPaymentWithRetry` (lines 105–132). -/
def processPaymentWithRetry {σ : Type} (repo : PaymentRepository σ)
    (draws : Nat → ℚ) (payment : Payment) (s : σ) : RetryOut σ :=
  retryLoop repo draws 0 MaxRetries "" payment s []

/-- The `model.Payment` literal built at lines 61–68 of `payment_service.go`
(zero values for the fields Go leaves unset). -/
def newPayment (req : CreatePaymentRequest) : Payment :=
  { ID := UUID.nilUUID
    UserID := req.UserID
    Amount := req.Amount
    Currency := req.Currency
    Status := .StatusInitiated
    IdempotencyKey := req.IdempotencyKey
    RetryCount := 0
    FailureReason := ""
    CreatedAt := 0
    UpdatedAt := 0 }

/-- `paymentService.CreatePayment` (lines 39–86): validate, idempotency
lookup, create, retry-process, persist outcome. Note two source behaviours
embedded verbatim: any `repo.Create` error (duplicate-key included) is
returned to the caller, and the `s.repo.Update(payment)` on the failure path
discards the update's error. -/
def CreatePayment {σ : Type} (repo : PaymentRepository σ) (draws : Nat → ℚ)
    (req : CreatePaymentRequest) (s : σ) :
    Except ServiceError PaymentResponse × σ :=
  match validatePaymentRequest req with
  | some e => (.error e, s)
  | none =>
    match repo.getByIdempotencyKey req.IdempotencyKey s with
    | (.error e, s1) => (.error e, s1)
    | (.ok (some existingPayment), s1) => (.ok (toPaymentResponse existingPayment), s1)
    | (.ok none, s1) =>
      match repo.create (newPayment req) s1 with
      | (.error e, s2) => (.error e, s2)
      | (.ok payment, s2) =>
        let r := processPaymentWithRetry repo draws payment s2
        match r.result with
        | some errMsg =>
            let p2 := { r.payment with Status := .StatusFailed, FailureReason := errMsg }
            let u := repo.update p2 r.store
            (.ok (toPaymentResponse p2), u.2)
        | none => (.ok (toPaymentResponse r.payment), r.store)

/-- Hex digit value, as in the byte table of github.com/google/uuid. -/
def hexVal (c : Char) : Option Nat :=
  if '0' ≤ c ∧ c ≤ '9' then some (c.toNat - '0'.toNat)
  else if 'a' ≤ c ∧ c ≤ 'f' then some (c.toNat - 'a'.toNat + 10)
  else if 'A' ≤ c ∧ c ≤ 'F' then some (c.toNat - 'A'.toNat + 10)
  else none

/-- Accumulate a big-endian hex number. -/
def parseHex (acc : Nat) : List Char → Option Nat
  | [] => some acc
  | c :: rest =>
    match hexVal c with
    | some v => parseHex (acc * 16 + v) rest
    | none => none

/-- Split a character list on a separator (the groups between separators,
like `strings.Split`). -/
def splitOnChar (sep : Char) : List Char → List (List Char)
  | [] => [[]]
  | c :: rest =>
    match splitOnChar sep rest with
    | [] => [[c]]
    | g :: gs => if c = sep then [] :: g :: gs else (c :: g) :: gs

/-- `uuid.Parse` from github.com/google/uuid (external library), modelled on
its canonical branch: the 36-character `xxxxxxxx-xxxx-xxxx-xxxx-xxxxxxxxxxxx`
form, dashes in exactly the canonical positions, hex digits elsewhere
(either case). Any other string is rejected. -/
def uuidParse (s : String) : Option UUID :=
  let groups := splitOnChar '-' s.toList
  if groups.map List.length = [8, 4, 4, 4, 12] then
    (parseHex 0 groups.flatten).map UUID.mk
  else
    none

/-- `paymentService.GetPayment` (lines 88–103): parse the identifier, then
fetch by id; a parse failure is reported before any repository access. -/
def GetPayment {σ : Type} (repo : PaymentRepository σ) (paymentID : String)
    (s : σ) : Except ServiceError PaymentResponse × σ :=
  match uuidParse paymentID with
  | none => (.error .invalidIDFormat, s)
  | some id =>
    match repo.getByID id s with
    | (.error e, s1) => (.error e, s1)
    | (.ok payment, s1) => (.ok (toPaymentResponse payment), s1)

/-! ## The concrete repository (`payment_repository.go` over the relational store)

The external GORM/Postgres store is modelled as an in-memory table `DB` with
the schema of `payment_model.go`: rows of `Payment`, a counter from which
fresh `uuid.New()` values are drawn (so generated ids are pairwise distinct
and never `uuid.Nil`), and a logical clock supplying the `CreatedAt` /
`UpdatedAt` timestamps GORM fills in. The `uniqueIndex` on `idempotency_key`
is enforced by `repoCreate`. -/

/-- The relational store state. -/
structure DB where
  rows : List Payment
  nextId : Nat
  clock : Nat
  deriving Repr

/-- `SELECT ... WHERE idempotency_key = ? LIMIT 1`. -/
def findByKey (rows : List Payment) (key : String) : Option Payment :=
  rows.find? (fun r => decide (r.IdempotencyKey = key))

/-- `SELECT ... WHERE id = ? LIMIT 1`. -/
def findByID (rows : List Payment) (id : UUID) : Option Payment :=
  rows.find? (fun r => decide (r.ID = id))

/-- `paymentRepository.Create`: the `BeforeCreate` hook assigns a fresh
`uuid.New()` when the id is `uuid.Nil`, GORM stamps the timestamps, and the
unique index on `idempotency_key` rejects a duplicate key with the store's
uniqueness-violation error. -/
def repoCreate (payment : Payment) (db : DB) : Except ServiceError Payment × DB :=
  if (findByKey db.rows payment.IdempotencyKey).isSome then
    (.error .duplicateKey, db)
  else
    let stored := { payment with
      ID := if payment.ID = UUID.nilUUID then ⟨db.nextId + 1⟩ else payment.ID
      CreatedAt := db.clock
      UpdatedAt := db.clock }
    (.ok stored, { rows := db.rows ++ [stored], nextId := db.nextId + 1, clock := db.clock + 1 })

/-- `paymentRepository.GetByID`: `gorm.ErrRecordNotFound` is mapped to
`errors.New("payment not found")`; a read does not change the store. -/
def repoGetByID (id : UUID) (db : DB) : Except ServiceError Payment × DB :=
  match findByID db.rows id with
  | none => (.error .notFound, db)
  | some payment => (.ok payment, db)

/-- `paymentRepository.GetByIdempotencyKey`: absence is `(nil, nil)` in Go,
i.e. `.ok none` — an explicit "absent" value, not an error. -/
def repoGetByIdempotencyKey (key : String) (db : DB) :
    Except ServiceError (Option Payment) × DB :=
  (.ok (findByKey db.rows key), db)

/-- `paymentRepository.Update` (`gorm Save`): upsert by primary key,
stamping `UpdatedAt`. -/
def repoUpdate (payment : Payment) (db : DB) : Except ServiceError Unit × DB :=
  let stored := { payment with UpdatedAt := db.clock }
  if (findByID db.rows payment.ID).isSome then
    (.ok (),
      { rows := db.rows.map (fun r => if r.ID = payment.ID then stored else r)
        nextId := db.nextId
        clock := db.clock + 1 })
  else
    (.ok (), { rows := db.rows ++ [stored], nextId := db.nextId, clock := db.clock + 1 })

/-- The concrete repository, as passed to `NewPaymentService` in `main.go`. -/
def paymentRepo : PaymentRepository DB :=
  { create := repoCreate
    getByID := repoGetByID
    getByIdempotencyKey := repoGetByIdempotencyKey
    update := repoUpdate }

/-- Store well-formedness: every row's id was drawn from the fresh-id counter,
so it is at most `nextId` (and a freshly generated id `nextId + 1` collides
with no existing row). Holds of the empty store and is preserved by the
repository operations as they occur in the service flow. -/
def DBWF (db : DB) : Prop :=
  ∀ r ∈ db.rows, r.ID.val ≤ db.nextId

/-- The empty store. -/
def emptyDB : DB := { rows := [], nextId := 0, clock := 0 }

/-! ## Store environments used as concrete test doubles

§9 of the design recommends capability-style collaborators precisely so the
core can be run against store doubles; these doubles exercise the fault paths
of the repository interface. -/

/-- The duplicate-key race of §5: between the idempotency lookup (which sees
no record) and `create`, a concurrent request inserts the same key, so
`create` fails with the store's uniqueness violation. -/
def raceStore : PaymentRepository Unit :=
  { create := fun _ s => (.error .duplicateKey, s)
    getByID := fun _ s => (.error .notFound, s)
    getByIdempotencyKey := fun _ s => (.ok none, s)
    update := fun _ s => (.ok (), s) }

/-- A store whose idempotency lookup fails with a storage fault. -/
def lookupFaultStore : PaymentRepository Unit :=
  { create := fun p s => (.ok { p with ID := ⟨1⟩ }, s)
    getByID := fun _ s => (.error .notFound, s)
    getByIdempotencyKey := fun _ s => (.error (.storageFault "connection lost"), s)
    update := fun _ s => (.ok (), s) }

/-- A store that accepts lookups and creates but whose `update` fails with a
storage fault (e.g. the connection drops between create and update). -/
def updateFaultStore : PaymentRepository Unit :=
  { create := fun p s => (.ok { p with ID := ⟨1⟩ }, s)
    getByID := fun _ s => (.error .notFound, s)
    getByIdempotencyKey := fun _ s => (.ok none, s)
    update := fun _ s => (.error (.storageFault "connection lost"), s) }

/-- The concrete creation request of the spec's test scenario
(`{key:"k1", amount:10000, currency:"INR", userId:"u1"}`). -/
def reqK1 : CreatePaymentRequest :=
  { IdempotencyKey := "k1", Amount := 10000, Currency := "INR", UserID := "u1" }

/-- A store already holding a terminal (`Success`) record, used to witness
terminal immutability. -/
def termDB : DB :=
  { rows := [{ ID := ⟨1⟩, UserID := "u7", Amount := 5, Currency := "EUR",
               Status := .StatusSuccess, IdempotencyKey := "kT", RetryCount := 1,
               FailureReason := "", CreatedAt := 0, UpdatedAt := 0 }],
    nextId := 5, clock := 7 }

/-! ## Helper lemmas -/

section Helpers

variable {σ : Type}

/-- Sanity check tying the embedded constant to the source's `0.3`. -/
lemma FailureRate_eq_div : FailureRate = 3 / 10 := by
  rw [FailureRate, Rat.mk'_eq_divInt, Rat.divInt_eq_div]
  norm_num

/-- Retry path: the first attempt succeeds. -/
lemma retry_path_succ1 (repo : PaymentRepository σ) (draws : Nat → ℚ) (p : Payment) (s : σ)
    (h0 : ¬ draws 0 < FailureRate) :
    processPaymentWithRetry repo draws p s =
      ⟨{ p with RetryCount := 1, Status := .StatusSuccess },
       (repo.update { p with RetryCount := 1, Status := .StatusSuccess } s).2, none, []⟩ := by
  simp [processPaymentWithRetry, MaxRetries, retryLoop, simulatePaymentProcessing, h0]

/-- Retry path: attempt 1 fails, attempt 2 succeeds; one backoff of 100 ms. -/
lemma retry_path_succ2 (repo : PaymentRepository σ) (draws : Nat → ℚ) (p : Payment) (s : σ)
    (h0 : draws 0 < FailureRate) (h1 : ¬ draws 1 < FailureRate) :
    processPaymentWithRetry repo draws p s =
      ⟨{ p with RetryCount := 2, Status := .StatusSuccess },
       (repo.update { p with RetryCount := 2, Status := .StatusSuccess } s).2, none, [100]⟩ := by
  simp [processPaymentWithRetry, MaxRetries, retryLoop, simulatePaymentProcessing, h0, h1]

/-- Retry path: attempts 1 and 2 fail, attempt 3 succeeds; backoffs 100, 200 ms. -/
lemma retry_path_succ3 (repo : PaymentRepository σ) (draws : Nat → ℚ) (p : Payment) (s : σ)
    (h0 : draws 0 < FailureRate) (h1 : draws 1 < FailureRate) (h2 : ¬ draws 2 < FailureRate) :
    processPaymentWithRetry repo draws p s =
      ⟨{ p with RetryCount := 3, Status := .StatusSuccess },
       (repo.update { p with RetryCount := 3, Status := .StatusSuccess } s).2, none, [100, 200]⟩ := by
  simp [processPaymentWithRetry, MaxRetries, retryLoop, simulatePaymentProcessing, h0, h1, h2]

/-- Retry path: all three attempts fail; no store write happens inside the
loop, the loop returns the exhaustion error, and no backoff follows the final
attempt. -/
lemma retry_path_exhausted (repo : PaymentRepository σ) (draws : Nat → ℚ) (p : Payment) (s : σ)
    (h0 : draws 0 < FailureRate) (h1 : draws 1 < FailureRate) (h2 : draws 2 < FailureRate) :
    processPaymentWithRetry repo draws p s =
      ⟨{ p with RetryCount := 3 }, s,
       some "payment failed after 3 retries: payment gateway timeout", [100, 200]⟩ := by
  simp [processPaymentWithRetry, MaxRetries, retryLoop, simulatePaymentProcessing, h0, h1, h2]
  rfl

/-- A request that fails validation is rejected before any repository call:
the result is the validation error and the store state is returned untouched,
for an arbitrary repository. -/
lemma createPayment_validation_fail (repo : PaymentRepository σ) (draws : Nat → ℚ)
    (req : CreatePaymentRequest) (s : σ) (e : ServiceError)
    (hv : validatePaymentRequest req = some e) :
    CreatePayment repo draws req s = (.error e, s) := by
  simp [CreatePayment, hv]

/-- An error from the idempotency lookup is propagated unchanged. -/
lemma createPayment_lookup_fault (repo : PaymentRepository σ) (draws : Nat → ℚ)
    (req : CreatePaymentRequest) (s s1 : σ) (e : ServiceError)
    (hv : validatePaymentRequest req = none)
    (hlk : repo.getByIdempotencyKey req.IdempotencyKey s = (.error e, s1)) :
    CreatePayment repo draws req s = (.error e, s1) := by
  simp [CreatePayment, hv, hlk]

/-- A record found by idempotency key is returned immediately, whatever its
status, with no further repository interaction. -/
lemma createPayment_found (repo : PaymentRepository σ) (draws : Nat → ℚ)
    (req : CreatePaymentRequest) (s s1 : σ) (q : Payment)
    (hv : validatePaymentRequest req = none)
    (hlk : repo.getByIdempotencyKey req.IdempotencyKey s = (.ok (some q), s1)) :
    CreatePayment repo draws req s = (.ok (toPaymentResponse q), s1) := by
  simp [CreatePayment, hv, hlk]

/-- An error from `repo.Create` — the duplicate-key violation included — is
propagated unchanged to the caller; no re-fetch by key is attempted. -/
lemma createPayment_create_fault (repo : PaymentRepository σ) (draws : Nat → ℚ)
    (req : CreatePaymentRequest) (s s1 s2 : σ) (e : ServiceError)
    (hv : validatePaymentRequest req = none)
    (hlk : repo.getByIdempotencyKey req.IdempotencyKey s = (.ok none, s1))
    (hcr : repo.create (newPayment req) s1 = (.error e, s2)) :
    CreatePayment repo draws req s = (.error e, s2) := by
  simp [CreatePayment, hv, hlk, hcr]

/-- After a successful create, `CreatePayment` is the retry loop followed by
outcome persistence. -/
lemma createPayment_run (repo : PaymentRepository σ) (draws : Nat → ℚ)
    (req : CreatePaymentRequest) (s s1 s2 : σ) (p : Payment)
    (hv : validatePaymentRequest req = none)
    (hlk : repo.getByIdempotencyKey req.IdempotencyKey s = (.ok none, s1))
    (hcr : repo.create (newPayment req) s1 = (.ok p, s2)) :
    CreatePayment repo draws req s =
      (match (processPaymentWithRetry repo draws p s2).result with
       | some errMsg =>
          (.ok (toPaymentResponse
                  { (processPaymentWithRetry repo draws p s2).payment with
                      Status := .StatusFailed, FailureReason := errMsg }),
           (repo.update
              { (processPaymentWithRetry repo draws p s2).payment with
                  Status := .StatusFailed, FailureReason := errMsg }
              (processPaymentWithRetry repo draws p s2).store).2)
       | none =>
          (.ok (toPaymentResponse (processPaymentWithRetry repo draws p s2).payment),
           (processPaymentWithRetry repo draws p s2).store)) := by
  simp [CreatePayment, hv, hlk, hcr]

/-- When the first attempt succeeds, the caller receives the success outcome
and the state left by the update — the update's own error value is discarded
by the source, so this holds whatever `repo.update` returns. -/
lemma createPayment_update_fault_ignored (repo : PaymentRepository σ) (draws : Nat → ℚ)
    (req : CreatePaymentRequest) (s s1 s2 : σ) (p : Payment)
    (hv : validatePaymentRequest req = none)
    (hlk : repo.getByIdempotencyKey req.IdempotencyKey s = (.ok none, s1))
    (hcr : repo.create (newPayment req) s1 = (.ok p, s2))
    (h0 : ¬ draws 0 < FailureRate) :
    CreatePayment repo draws req s =
      (.ok (toPaymentResponse { p with RetryCount := 1, Status := .StatusSuccess }),
       (repo.update { p with RetryCount := 1, Status := .StatusSuccess } s2).2) := by
  rw [createPayment_run repo draws req s s1 s2 p hv hlk hcr,
    retry_path_succ1 repo draws p s2 h0]

/-- A well-formed store contains no row with the next generated id. -/
lemma WF_fresh_id (db : DB) (hWF : DBWF db) :
    ∀ r ∈ db.rows, r.ID ≠ UUID.mk (db.nextId + 1) := by
  intro r hr h
  have hle := hWF r hr
  rw [h] at hle
  simp at hle

/-- An id-targeted overwrite misses every row with a different id. -/
lemma map_untouched (rows : List Payment) (i : UUID) (q : Payment)
    (h : ∀ r ∈ rows, r.ID ≠ i) :
    rows.map (fun r => if r.ID = i then q else r) = rows :=
  calc rows.map (fun r => if r.ID = i then q else r)
      = rows.map id := List.map_congr_left (fun r hr => by simp [h r hr])
    _ = rows := List.map_id rows

/-- Looking up a freshly appended row by its id finds it. -/
lemma findByID_fresh (rows : List Payment) (p : Payment)
    (h : ∀ r ∈ rows, r.ID ≠ p.ID) :
    findByID (rows ++ [p]) p.ID = some p := by
  unfold findByID
  rw [List.find?_append]
  have h1 : rows.find? (fun r => decide (r.ID = p.ID)) = none :=
    List.find?_eq_none.mpr (fun r hr => by simp [h r hr])
  simp [h1]

/-- Updating the freshly appended row rewrites only that row. -/
lemma repoUpdate_fresh (rows : List Payment) (p0 q : Payment) (n c : Nat)
    (hfresh : ∀ r ∈ rows, r.ID ≠ p0.ID) (hid : q.ID = p0.ID) :
    repoUpdate q ⟨rows ++ [p0], n, c⟩ =
      (.ok (), ⟨rows ++ [{ q with UpdatedAt := c }], n, c + 1⟩) := by
  have hfid : findByID (rows ++ [p0]) q.ID = some p0 := by
    rw [hid]; exact findByID_fresh rows p0 hfresh
  simp only [repoUpdate, hfid, Option.isSome_some, if_pos]
  refine congrArg _ ?_
  refine congrArg (fun rs => DB.mk rs n (c + 1)) ?_
  rw [List.map_append]
  refine congrArg₂ _ ?_ ?_
  · exact map_untouched rows q.ID _ (fun r hr => by rw [hid]; exact hfresh r hr)
  · simp [hid]

/-- Creating the service's fresh record in a store without its key: the
record is stored with the generated id and timestamps. -/
lemma repoCreate_fresh (db : DB) (req : CreatePaymentRequest)
    (hk : findByKey db.rows req.IdempotencyKey = none) :
    repoCreate (newPayment req) db =
      (.ok { newPayment req with ID := UUID.mk (db.nextId + 1), CreatedAt := db.clock, UpdatedAt := db.clock },
       { rows := db.rows ++ [{ newPayment req with ID := UUID.mk (db.nextId + 1), CreatedAt := db.clock, UpdatedAt := db.clock }],
         nextId := db.nextId + 1, clock := db.clock + 1 }) := by
  simp [repoCreate, newPayment, hk, UUID.nilUUID]

/-- The central characterization: a valid submission whose key is not yet in
a well-formed store returns an `.ok` outcome for a single freshly stored
record `q` carrying the request's fields, a generated id, and a terminal
status. -/
lemma createPayment_fresh (db : DB) (req : CreatePaymentRequest) (draws : Nat → ℚ)
    (hWF : DBWF db) (hv : validatePaymentRequest req = none)
    (hk : findByKey db.rows req.IdempotencyKey = none) :
    ∃ q : Payment,
      CreatePayment paymentRepo draws req db =
        (.ok (toPaymentResponse q),
          { rows := db.rows ++ [q], nextId := db.nextId + 1, clock := db.clock + 2 })
      ∧ q.ID = UUID.mk (db.nextId + 1)
      ∧ q.IdempotencyKey = req.IdempotencyKey
      ∧ q.Amount = req.Amount
      ∧ q.Currency = req.Currency
      ∧ q.UserID = req.UserID
      ∧ q.CreatedAt = db.clock
      ∧ (q.Status = .StatusSuccess ∨ q.Status = .StatusFailed ∧ q.FailureReason ≠ "")
      ∧ 1 ≤ q.RetryCount ∧ q.RetryCount ≤ MaxRetries := by
  have hcr := repoCreate_fresh db req hk
  have hlk : paymentRepo.getByIdempotencyKey req.IdempotencyKey db = (.ok none, db) := by
    simp [paymentRepo, repoGetByIdempotencyKey, hk]
  obtain ⟨p0, hp0⟩ : ∃ p0 : Payment, { newPayment req with ID := UUID.mk (db.nextId + 1), CreatedAt := db.clock, UpdatedAt := db.clock } = p0 :=
    ⟨_, rfl⟩
  rw [hp0] at hcr
  have hrun := createPayment_run paymentRepo draws req db db _ p0 hv hlk hcr
  have hfresh : ∀ r ∈ db.rows, r.ID ≠ p0.ID := by
    intro r hr
    rw [← hp0]
    exact WF_fresh_id db hWF r hr
  have hid : p0.ID = UUID.mk (db.nextId + 1) := by rw [← hp0]
  by_cases h0 : draws 0 < FailureRate
  · by_cases h1 : draws 1 < FailureRate
    · by_cases h2 : draws 2 < FailureRate
      · -- exhausted
        refine ⟨{ p0 with RetryCount := 3, Status := .StatusFailed, FailureReason := "payment failed after 3 retries: payment gateway timeout", UpdatedAt := db.clock + 1 }, ?_, ?_⟩
        · rw [hrun, retry_path_exhausted paymentRepo draws p0 _ h0 h1 h2]
          simp only [paymentRepo]
          rw [repoUpdate_fresh db.rows p0 { p0 with RetryCount := 3, Status := .StatusFailed, FailureReason := "payment failed after 3 retries: payment gateway timeout" } (db.nextId + 1) (db.clock + 1) hfresh rfl]
          simp [toPaymentResponse]
        · refine ⟨hid, ?_⟩
          rw [← hp0]
          simp [newPayment, MaxRetries]
      · -- success on attempt 3
        refine ⟨{ p0 with RetryCount := 3, Status := .StatusSuccess, UpdatedAt := db.clock + 1 }, ?_, ?_⟩
        · rw [hrun, retry_path_succ3 paymentRepo draws p0 _ h0 h1 h2]
          simp only [paymentRepo]
          rw [repoUpdate_fresh db.rows p0 { p0 with RetryCount := 3, Status := .StatusSuccess } (db.nextId + 1) (db.clock + 1) hfresh rfl]
          simp [toPaymentResponse]
        · refine ⟨hid, ?_⟩
          rw [← hp0]
          simp [newPayment, MaxRetries]
    · -- success on attempt 2
      refine ⟨{ p0 with RetryCount := 2, Status := .StatusSuccess, UpdatedAt := db.clock + 1 }, ?_, ?_⟩
      · rw [hrun, retry_path_succ2 paymentRepo draws p0 _ h0 h1]
        simp only [paymentRepo]
        rw [repoUpdate_fresh db.rows p0 { p0 with RetryCount := 2, Status := .StatusSuccess } (db.nextId + 1) (db.clock + 1) hfresh rfl]
        simp [toPaymentResponse]
      · refine ⟨hid, ?_⟩
        rw [← hp0]
        simp [newPayment, MaxRetries]
  · -- success on attempt 1
    refine ⟨{ p0 with RetryCount := 1, Status := .StatusSuccess, UpdatedAt := db.clock + 1 }, ?_, ?_⟩
    · rw [hrun, retry_path_succ1 paymentRepo draws p0 _ h0]
      simp only [paymentRepo]
      rw [repoUpdate_fresh db.rows p0 { p0 with RetryCount := 1, Status := .StatusSuccess } (db.nextId + 1) (db.clock + 1) hfresh rfl]
      simp [toPaymentResponse]
    · refine ⟨hid, ?_⟩
      rw [← hp0]
      simp [newPayment, MaxRetries]

/-- The concrete idempotency lookup just reads the unique index. -/
lemma paymentRepo_lookup (db : DB) (key : String) :
    paymentRepo.getByIdempotencyKey key db = (.ok (findByKey db.rows key), db) := rfl

/-- A record appended to a store that lacked its key is found by that key. -/
lemma findByKey_append_fresh (rows : List Payment) (q : Payment) (key : String)
    (hk : findByKey rows key = none) (hq : q.IdempotencyKey = key) :
    findByKey (rows ++ [q]) key = some q := by
  unfold findByKey at hk ⊢
  rw [List.find?_append, hk]
  simp [hq]

/-- A malformed identifier is rejected by `GetPayment` before any repository
access: the conclusion holds for an arbitrary repository and the state is
returned untouched. -/
lemma getPayment_malformed (repo : PaymentRepository σ) (pid : String) (s : σ)
    (hp : uuidParse pid = none) :
    GetPayment repo pid s = (.error .invalidIDFormat, s) := by
  simp [GetPayment, hp]

/-- A well-formed identifier with no stored record yields the not-found
error of `paymentRepository.GetByID`. -/
lemma getPayment_notFound (db : DB) (pid : String) (u : UUID)
    (hp : uuidParse pid = some u) (hu : findByID db.rows u = none) :
    GetPayment paymentRepo pid db = (.error .notFound, db) := by
  simp [GetPayment, hp, paymentRepo, repoGetByID, hu]

/-- `GetPayment` over the concrete store is a pure read: the store state is
returned unchanged on every path. -/
lemma getPayment_pure (db : DB) (pid : String) :
    (GetPayment paymentRepo pid db).2 = db := by
  unfold GetPayment
  cases hp : uuidParse pid with
  | none => rfl
  | some u =>
    simp only [paymentRepo, repoGetByID]
    cases findByID db.rows u <;> rfl

end Helpers

/-! ## Claims -/

lemma validate_none_iff (req : CreatePaymentRequest) :
    validatePaymentRequest req = none ↔
      (MinAmount ≤ req.Amount ∧ req.Amount ≤ MaxAmount ∧ req.Currency.length = 3 ∧
        req.IdempotencyKey ≠ "" ∧ req.UserID ≠ "") := by
  constructor
  · intro h
    unfold validatePaymentRequest at h
    split_ifs at h with h1 h2 h3 h4 h5
    all_goals
      first
        | exact Option.noConfusion h
        | exact ⟨not_lt.mp h1, not_lt.mp h2, not_ne_iff.mp h3, h4, h5⟩
  · rintro ⟨ha, hb, hc, hd, he⟩
    unfold validatePaymentRequest
    rw [if_neg (not_lt.mpr ha), if_neg (not_lt.mpr hb), if_neg (not_ne_iff.mpr hc),
      if_neg hd, if_neg he]

lemma validate_rule1 (req : CreatePaymentRequest) (h1 : req.Amount < MinAmount) :
    validatePaymentRequest req = some (.validation "amount must be at least 1") := by
  unfold validatePaymentRequest
  rw [if_pos h1]
  rfl

lemma validate_rule2 (req : CreatePaymentRequest) (h1 : MinAmount ≤ req.Amount)
    (h2 : MaxAmount < req.Amount) :
    validatePaymentRequest req = some (.validation "amount cannot exceed 1000000") := by
  unfold validatePaymentRequest
  rw [if_neg (not_lt.mpr h1), if_pos h2]
  rfl

lemma validate_rule3 (req : CreatePaymentRequest) (h1 : MinAmount ≤ req.Amount)
    (h2 : req.Amount ≤ MaxAmount) (h3 : req.Currency.length ≠ 3) :
    validatePaymentRequest req = some (.validation "currency must be a 3-letter ISO code") := by
  unfold validatePaymentRequest
  rw [if_neg (not_lt.mpr h1), if_neg (not_lt.mpr h2), if_pos h3]

lemma validate_rule4 (req : CreatePaymentRequest) (h1 : MinAmount ≤ req.Amount)
    (h2 : req.Amount ≤ MaxAmount) (h3 : req.Currency.length = 3)
    (h4 : req.IdempotencyKey = "") :
    validatePaymentRequest req = some (.validation "idempotency key is required") := by
  unfold validatePaymentRequest
  rw [if_neg (not_lt.mpr h1), if_neg (not_lt.mpr h2), if_neg (not_ne_iff.mpr h3), if_pos h4]

lemma validate_rule5 (req : CreatePaymentRequest) (h1 : MinAmount ≤ req.Amount)
    (h2 : req.Amount ≤ MaxAmount) (h3 : req.Currency.length = 3)
    (h4 : req.IdempotencyKey ≠ "") (h5 : req.UserID = "") :
    validatePaymentRequest req = some (.validation "user ID is required") := by
  unfold validatePaymentRequest
  rw [if_neg (not_lt.mpr h1), if_neg (not_lt.mpr h2), if_neg (not_ne_iff.mpr h3),
    if_neg h4, if_pos h5]

/-- C3: validation is a pure function of the request that accepts exactly when
`MinAmount ≤ amount ≤ MaxAmount`, the currency has exactly 3 characters, the
idempotency key is non-empty and the user id is non-empty; otherwise it
reports the first violated rule, checking the rules in exactly that order
(both amount boundaries are accepted, by the `iff`). -/
theorem C3_validation_rules (req : CreatePaymentRequest) :
    (validatePaymentRequest req = none ↔
      (MinAmount ≤ req.Amount ∧ req.Amount ≤ MaxAmount ∧ req.Currency.length = 3 ∧
        req.IdempotencyKey ≠ "" ∧ req.UserID ≠ ""))
    ∧ (req.Amount < MinAmount →
        validatePaymentRequest req = some (.validation "amount must be at least 1"))
    ∧ (MinAmount ≤ req.Amount → MaxAmount < req.Amount →
        validatePaymentRequest req = some (.validation "amount cannot exceed 1000000"))
    ∧ (MinAmount ≤ req.Amount → req.Amount ≤ MaxAmount → req.Currency.length ≠ 3 →
        validatePaymentRequest req = some (.validation "currency must be a 3-letter ISO code"))
    ∧ (MinAmount ≤ req.Amount → req.Amount ≤ MaxAmount → req.Currency.length = 3 →
        req.IdempotencyKey = "" →
        validatePaymentRequest req = some (.validation "idempotency key is required"))
    ∧ (MinAmount ≤ req.Amount → req.Amount ≤ MaxAmount → req.Currency.length = 3 →
        req.IdempotencyKey ≠ "" → req.UserID = "" →
        validatePaymentRequest req = some (.validation "user ID is required")) :=
  ⟨validate_none_iff req, validate_rule1 req, validate_rule2 req, validate_rule3 req,
   validate_rule4 req, validate_rule5 req⟩

/-- Witness for C3: both boundary amounts are accepted and `amount = 0` is
rejected by the first rule. -/
theorem C3_witness :
    validatePaymentRequest ⟨"b1", 1, "INR", "u1"⟩ = none
    ∧ validatePaymentRequest ⟨"b2", 1000000, "USD", "u2"⟩ = none
    ∧ validatePaymentRequest ⟨"b3", 0, "INR", "u3"⟩ =
        some (.validation "amount must be at least 1") :=
  ⟨(C3_validation_rules ⟨"b1", 1, "INR", "u1"⟩).1.mpr (by decide),
   (C3_validation_rules ⟨"b2", 1000000, "USD", "u2"⟩).1.mpr (by decide),
   (C3_validation_rules ⟨"b3", 0, "INR", "u3"⟩).2.1 (by decide)⟩

/-- C4: a request violating any validation rule makes `CreatePayment` return
a validation error with the store state returned untouched; the conclusion
holds for every repository implementation, so no storage access can influence
or be influenced by the call, and no record is created. -/
theorem C4_invalid_request_leaves_store_untouched (σ : Type) (repo : PaymentRepository σ)
    (draws : Nat → ℚ) (req : CreatePaymentRequest) (s : σ)
    (hbad : req.Amount < MinAmount ∨ MaxAmount < req.Amount ∨ req.Currency.length ≠ 3 ∨
      req.IdempotencyKey = "" ∨ req.UserID = "") :
    ∃ msg, CreatePayment repo draws req s = (.error (.validation msg), s) := by
  have hv : ∃ msg, validatePaymentRequest req = some (.validation msg) := by
    rcases hbad with h | h | h | h | h
    · exact ⟨_, validate_rule1 req h⟩
    · rcases lt_or_le req.Amount MinAmount with h1 | h1
      · exact ⟨_, validate_rule1 req h1⟩
      · exact ⟨_, validate_rule2 req h1 h⟩
    · rcases lt_or_le req.Amount MinAmount with h1 | h1
      · exact ⟨_, validate_rule1 req h1⟩
      · rcases lt_or_le MaxAmount req.Amount with h2 | h2
        · exact ⟨_, validate_rule2 req h1 h2⟩
        · exact ⟨_, validate_rule3 req h1 h2 h⟩
    · rcases lt_or_le req.Amount MinAmount with h1 | h1
      · exact ⟨_, validate_rule1 req h1⟩
      · rcases lt_or_le MaxAmount req.Amount with h2 | h2
        · exact ⟨_, validate_rule2 req h1 h2⟩
        · rcases eq_or_ne req.Currency.length 3 with h3 | h3
          · exact ⟨_, validate_rule4 req h1 h2 h3 h⟩
          · exact ⟨_, validate_rule3 req h1 h2 h3⟩
    · rcases lt_or_le req.Amount MinAmount with h1 | h1
      · exact ⟨_, validate_rule1 req h1⟩
      · rcases lt_or_le MaxAmount req.Amount with h2 | h2
        · exact ⟨_, validate_rule2 req h1 h2⟩
        · rcases eq_or_ne req.Currency.length 3 with h3 | h3
          · rcases eq_or_ne req.IdempotencyKey "" with h4 | h4
            · exact ⟨_, validate_rule4 req h1 h2 h3 h4⟩
            · exact ⟨_, validate_rule5 req h1 h2 h3 h4 h⟩
          · exact ⟨_, validate_rule3 req h1 h2 h3⟩
  obtain ⟨msg, hm⟩ := hv
  exact ⟨msg, createPayment_validation_fail repo draws req s _ hm⟩

/-- Witness for C4: a negative amount is rejected with the store untouched. -/
theorem C4_witness :
    ∃ msg, CreatePayment raceStore (fun _ => 1) ⟨"k9", -5, "INR", "u9"⟩ () =
      (.error (.validation msg), ()) :=
  C4_invalid_request_leaves_store_untouched Unit raceStore (fun _ => 1)
    ⟨"k9", -5, "INR", "u9"⟩ () (by decide)

/-- C1 counterexample: in the duplicate-key race environment (`raceStore`),
a valid request's `create` fails with the uniqueness violation, and
`CreatePayment` surfaces exactly that duplicate-key condition to the caller
as an error — it does not re-fetch by key and return a record's state. -/
theorem C1_counterexample :
    CreatePayment raceStore (fun _ => 1) reqK1 () = (.error .duplicateKey, ()) := rfl

/-- C1 amended: when the record-store create fails — with the duplicate-key
condition or any other error — `CreatePayment` propagates that error to the
caller unchanged and performs no re-fetch by idempotency key (the conclusion
holds for every repository, so no recovery read can occur). -/
theorem C1_create_error_propagated (σ : Type) (repo : PaymentRepository σ)
    (draws : Nat → ℚ) (req : CreatePaymentRequest) (s s1 s2 : σ) (e : ServiceError)
    (hv : validatePaymentRequest req = none)
    (hlk : repo.getByIdempotencyKey req.IdempotencyKey s = (.ok none, s1))
    (hcr : repo.create (newPayment req) s1 = (.error e, s2)) :
    CreatePayment repo draws req s = (.error e, s2) :=
  createPayment_create_fault repo draws req s s1 s2 e hv hlk hcr

/-- Witness for C1 amended, at the race environment and the spec's concrete
request. -/
theorem C1_witness :
    validatePaymentRequest reqK1 = none
    ∧ CreatePayment raceStore (fun _ => (1 : ℚ)) reqK1 () = (.error .duplicateKey, ()) :=
  ⟨rfl, C1_create_error_propagated Unit raceStore (fun _ => 1) reqK1 () () ()
    .duplicateKey rfl rfl rfl⟩

/-- C9 counterexample: the store accepts the lookup and the create, the
first attempt succeeds, and persisting the update fails with a storage fault
(`updateFaultStore`) — yet the caller receives a plain success outcome: the
update's error is discarded by `processPaymentWithRetry`. -/
theorem C9_counterexample :
    CreatePayment updateFaultStore (fun _ => 1) reqK1 () =
      (.ok { PaymentID := ⟨1⟩, Status := .StatusSuccess, Amount := 10000,
             Currency := "INR", CreatedAt := 0 }, ()) := rfl

/-- C9 amended: storage faults on the idempotency lookup and on create are
propagated to the caller unchanged; but a fault while persisting the record
update after a successful attempt is silently discarded and the caller still
receives the success outcome. -/
theorem C9_storage_faults :
    (∀ (σ : Type) (repo : PaymentRepository σ) (draws : Nat → ℚ)
        (req : CreatePaymentRequest) (s s1 : σ) (e : ServiceError),
        validatePaymentRequest req = none →
        repo.getByIdempotencyKey req.IdempotencyKey s = (.error e, s1) →
        CreatePayment repo draws req s = (.error e, s1))
    ∧ (∀ (σ : Type) (repo : PaymentRepository σ) (draws : Nat → ℚ)
        (req : CreatePaymentRequest) (s s1 s2 : σ) (e : ServiceError),
        validatePaymentRequest req = none →
        repo.getByIdempotencyKey req.IdempotencyKey s = (.ok none, s1) →
        repo.create (newPayment req) s1 = (.error e, s2) →
        CreatePayment repo draws req s = (.error e, s2))
    ∧ (∀ (σ : Type) (repo : PaymentRepository σ) (draws : Nat → ℚ)
        (req : CreatePaymentRequest) (s s1 s2 : σ) (p : Payment),
        validatePaymentRequest req = none →
        repo.getByIdempotencyKey req.IdempotencyKey s = (.ok none, s1) →
        repo.create (newPayment req) s1 = (.ok p, s2) →
        ¬ draws 0 < FailureRate →
        CreatePayment repo draws req s =
          (.ok (toPaymentResponse { p with RetryCount := 1, Status := .StatusSuccess }),
           (repo.update { p with RetryCount := 1, Status := .StatusSuccess } s2).2)) :=
  ⟨fun _ repo draws req s s1 e hv hlk =>
      createPayment_lookup_fault repo draws req s s1 e hv hlk,
   fun _ repo draws req s s1 s2 e hv hlk hcr =>
      createPayment_create_fault repo draws req s s1 s2 e hv hlk hcr,
   fun _ repo draws req s s1 s2 p hv hlk hcr h0 =>
      createPayment_update_fault_ignored repo draws req s s1 s2 p hv hlk hcr h0⟩

/-- Witness for C9 amended: a lookup fault and a create fault are
propagated; an update fault after success is swallowed. -/
theorem C9_witness :
    CreatePayment lookupFaultStore (fun _ => (1 : ℚ)) reqK1 () =
      (.error (.storageFault "connection lost"), ())
    ∧ CreatePayment raceStore (fun _ => (1 : ℚ)) ⟨"k2", 500, "USD", "u2"⟩ () =
        (.error .duplicateKey, ())
    ∧ CreatePayment updateFaultStore (fun _ => (2 : ℚ)) reqK1 () =
        (.ok { PaymentID := ⟨1⟩, Status := .StatusSuccess, Amount := 10000,
               Currency := "INR", CreatedAt := 0 }, ()) :=
  ⟨C9_storage_faults.1 Unit lookupFaultStore (fun _ => 1) reqK1 () ()
      (.storageFault "connection lost") rfl rfl,
   C9_storage_faults.2.1 Unit raceStore (fun _ => 1) ⟨"k2", 500, "USD", "u2"⟩ () () ()
      .duplicateKey rfl rfl rfl,
   C9_storage_faults.2.2 Unit updateFaultStore (fun _ => 2) reqK1 () () ()
      { newPayment reqK1 with ID := ⟨1⟩ } rfl rfl rfl (by decide)⟩

/-- C5: for a fresh record whose executor fails on all attempts, the retry
loop runs exactly `MaxRetries = 3` attempts and the final stored record has
`retryCount = MaxRetries`, `status = Failed` and the non-empty failure reason
wrapping the last attempt's error; the outcome is returned to the caller as a
payment outcome (`.ok`), not as an error. -/
theorem C5_retry_exhaustion (db : DB) (req : CreatePaymentRequest) (draws : Nat → ℚ)
    (hWF : DBWF db) (hv : validatePaymentRequest req = none)
    (hk : findByKey db.rows req.IdempotencyKey = none)
    (hfail : ∀ i, i < MaxRetries → draws i < FailureRate) :
    ∃ q : Payment,
      CreatePayment paymentRepo draws req db =
        (.ok (toPaymentResponse q),
          { rows := db.rows ++ [q], nextId := db.nextId + 1, clock := db.clock + 2 })
      ∧ q.RetryCount = MaxRetries
      ∧ q.Status = .StatusFailed
      ∧ q.FailureReason = "payment failed after 3 retries: payment gateway timeout"
      ∧ q.FailureReason ≠ "" := by
  have h0 := hfail 0 (by decide)
  have h1 := hfail 1 (by decide)
  have h2 := hfail 2 (by decide)
  have hcr := repoCreate_fresh db req hk
  have hlk : paymentRepo.getByIdempotencyKey req.IdempotencyKey db = (.ok none, db) := by
    simp [paymentRepo, repoGetByIdempotencyKey, hk]
  obtain ⟨p0, hp0⟩ : ∃ p0 : Payment, { newPayment req with ID := UUID.mk (db.nextId + 1), CreatedAt := db.clock, UpdatedAt := db.clock } = p0 :=
    ⟨_, rfl⟩
  rw [hp0] at hcr
  have hrun := createPayment_run paymentRepo draws req db db _ p0 hv hlk hcr
  have hfresh : ∀ r ∈ db.rows, r.ID ≠ p0.ID := by
    intro r hr
    rw [← hp0]
    exact WF_fresh_id db hWF r hr
  refine ⟨{ p0 with RetryCount := 3, Status := .StatusFailed, FailureReason := "payment failed after 3 retries: payment gateway timeout", UpdatedAt := db.clock + 1 }, ?_, rfl, rfl, rfl, by simp⟩
  rw [hrun, retry_path_exhausted paymentRepo draws p0 _ h0 h1 h2]
  simp only [paymentRepo]
  rw [repoUpdate_fresh db.rows p0 { p0 with RetryCount := 3, Status := .StatusFailed, FailureReason := "payment failed after 3 retries: payment gateway timeout" } (db.nextId + 1) (db.clock + 1) hfresh rfl]
  simp [toPaymentResponse]

/-- Witness for C5, at the spec's concrete request with an always-failing
executor. -/
theorem C5_witness :
    ∃ q : Payment,
      CreatePayment paymentRepo (fun _ => 0) reqK1 emptyDB =
        (.ok (toPaymentResponse q), { rows := [q], nextId := 1, clock := 2 })
      ∧ q.RetryCount = MaxRetries
      ∧ q.Status = .StatusFailed
      ∧ q.FailureReason = "payment failed after 3 retries: payment gateway timeout"
      ∧ q.FailureReason ≠ "" := by
  have h := C5_retry_exhaustion emptyDB reqK1 (fun _ => 0)
    (by intro r hr; exact absurd hr (List.not_mem_nil r)) rfl rfl
    (by intro i _; exact (by decide : (0 : ℚ) < FailureRate))
  simpa [emptyDB] using h

/-- C6: the backoff delay after failing attempt `n` (the `j = n - 1`-th
recorded sleep) equals `n × 100` ms, the schedule is strictly increasing, and
no backoff is waited after the final attempt (there is exactly one fewer
sleep than attempts performed, and never more than `MaxRetries - 1`). -/
theorem C6_backoff_schedule (σ : Type) (repo : PaymentRepository σ) (draws : Nat → ℚ)
    (p : Payment) (s : σ) :
    (processPaymentWithRetry repo draws p s).sleeps =
      (List.range (processPaymentWithRetry repo draws p s).sleeps.length).map
        (fun j => (j + 1) * 100)
    ∧ (processPaymentWithRetry repo draws p s).sleeps.length + 1 =
        (processPaymentWithRetry repo draws p s).payment.RetryCount
    ∧ (processPaymentWithRetry repo draws p s).sleeps.length ≤ MaxRetries - 1
    ∧ (processPaymentWithRetry repo draws p s).sleeps.Chain' (· < ·) := by
  by_cases h0 : draws 0 < FailureRate
  · by_cases h1 : draws 1 < FailureRate
    · by_cases h2 : draws 2 < FailureRate
      · have hs : (processPaymentWithRetry repo draws p s).sleeps = [100, 200] := by
          rw [retry_path_exhausted repo draws p s h0 h1 h2]
        have hr : (processPaymentWithRetry repo draws p s).payment.RetryCount = 3 := by
          rw [retry_path_exhausted repo draws p s h0 h1 h2]
        rw [hs, hr]
        exact ⟨by decide, by decide, by decide, by simp⟩
      · have hs : (processPaymentWithRetry repo draws p s).sleeps = [100, 200] := by
          rw [retry_path_succ3 repo draws p s h0 h1 h2]
        have hr : (processPaymentWithRetry repo draws p s).payment.RetryCount = 3 := by
          rw [retry_path_succ3 repo draws p s h0 h1 h2]
        rw [hs, hr]
        exact ⟨by decide, by decide, by decide, by simp⟩
    · have hs : (processPaymentWithRetry repo draws p s).sleeps = [100] := by
        rw [retry_path_succ2 repo draws p s h0 h1]
      have hr : (processPaymentWithRetry repo draws p s).payment.RetryCount = 2 := by
        rw [retry_path_succ2 repo draws p s h0 h1]
      rw [hs, hr]
      exact ⟨by decide, by decide, by decide, by simp⟩
  · have hs : (processPaymentWithRetry repo draws p s).sleeps = [] := by
      rw [retry_path_succ1 repo draws p s h0]
    have hr : (processPaymentWithRetry repo draws p s).payment.RetryCount = 1 := by
      rw [retry_path_succ1 repo draws p s h0]
    rw [hs, hr]
    exact ⟨by decide, by decide, by decide, by simp⟩

/-- C2: submitting a valid request twice sequentially yields two `.ok`
responses with identical `paymentId`; the second submission leaves the store
state exactly unchanged, and — because its result is the same for every
executor-draw sequence (third conjunct) — performs no new downstream
processing attempts. When the lookup by key finds an existing record, its
current state is returned immediately whatever its status (first conjunct,
with no constraint on the stored record's status). -/
theorem C2_idempotency (db : DB) (req : CreatePaymentRequest) (draws1 draws2 : Nat → ℚ)
    (hWF : DBWF db) (hv : validatePaymentRequest req = none) :
    (∀ q : Payment, findByKey db.rows req.IdempotencyKey = some q →
        CreatePayment paymentRepo draws1 req db = (.ok (toPaymentResponse q), db))
    ∧ (∃ r1 r2 : PaymentResponse,
        (CreatePayment paymentRepo draws1 req db).1 = .ok r1
        ∧ CreatePayment paymentRepo draws2 req (CreatePayment paymentRepo draws1 req db).2 =
            (.ok r2, (CreatePayment paymentRepo draws1 req db).2)
        ∧ r1.PaymentID = r2.PaymentID)
    ∧ (∀ draws3 : Nat → ℚ,
        CreatePayment paymentRepo draws2 req (CreatePayment paymentRepo draws1 req db).2 =
          CreatePayment paymentRepo draws3 req (CreatePayment paymentRepo draws1 req db).2) := by
  have hfound : ∀ (d : Nat → ℚ) (q : Payment),
      findByKey db.rows req.IdempotencyKey = some q →
      CreatePayment paymentRepo d req db = (.ok (toPaymentResponse q), db) := by
    intro d q hq
    have hlk : paymentRepo.getByIdempotencyKey req.IdempotencyKey db = (.ok (some q), db) := by
      rw [paymentRepo_lookup, hq]
    exact createPayment_found paymentRepo d req db db q hv hlk
  refine ⟨hfound draws1, ?_, ?_⟩
  · cases hfk : findByKey db.rows req.IdempotencyKey with
    | some q =>
      have h1 := hfound draws1 q hfk
      refine ⟨toPaymentResponse q, toPaymentResponse q, by rw [h1], ?_, rfl⟩
      rw [h1]
      exact hfound draws2 q hfk
    | none =>
      obtain ⟨q, hq, hqid, hqkey, _, _, _, _, _, _, _⟩ :=
        createPayment_fresh db req draws1 hWF hv hfk
      refine ⟨toPaymentResponse q, toPaymentResponse q, by rw [hq], ?_, rfl⟩
      rw [hq]
      have hk2 : findByKey (db.rows ++ [q]) req.IdempotencyKey = some q :=
        findByKey_append_fresh db.rows q req.IdempotencyKey hfk hqkey
      have hlk2 : paymentRepo.getByIdempotencyKey req.IdempotencyKey
          { rows := db.rows ++ [q], nextId := db.nextId + 1, clock := db.clock + 2 } =
          (.ok (some q), { rows := db.rows ++ [q], nextId := db.nextId + 1, clock := db.clock + 2 }) := by
        rw [paymentRepo_lookup]
        simp [hk2]
      exact createPayment_found paymentRepo draws2 req _ _ q hv hlk2
  · intro draws3
    cases hfk : findByKey db.rows req.IdempotencyKey with
    | some q =>
      have h1 := hfound draws1 q hfk
      rw [h1]
      rw [hfound draws2 q hfk, hfound draws3 q hfk]
    | none =>
      obtain ⟨q, hq, hqid, hqkey, _, _, _, _, _, _, _⟩ :=
        createPayment_fresh db req draws1 hWF hv hfk
      rw [hq]
      have hk2 : findByKey (db.rows ++ [q]) req.IdempotencyKey = some q :=
        findByKey_append_fresh db.rows q req.IdempotencyKey hfk hqkey
      have hlk2 : paymentRepo.getByIdempotencyKey req.IdempotencyKey
          { rows := db.rows ++ [q], nextId := db.nextId + 1, clock := db.clock + 2 } =
          (.ok (some q), { rows := db.rows ++ [q], nextId := db.nextId + 1, clock := db.clock + 2 }) := by
        rw [paymentRepo_lookup]
        simp [hk2]
      rw [createPayment_found paymentRepo draws2 req _ _ q hv hlk2,
        createPayment_found paymentRepo draws3 req _ _ q hv hlk2]

/-- Witness for C2 at the spec's concrete request on the empty store. -/
theorem C2_witness :
    ∃ r1 r2 : PaymentResponse,
      (CreatePayment paymentRepo (fun _ => 1) reqK1 emptyDB).1 = .ok r1
      ∧ CreatePayment paymentRepo (fun _ => 0) reqK1
          (CreatePayment paymentRepo (fun _ => 1) reqK1 emptyDB).2 =
          (.ok r2, (CreatePayment paymentRepo (fun _ => 1) reqK1 emptyDB).2)
      ∧ r1.PaymentID = r2.PaymentID :=
  (C2_idempotency emptyDB reqK1 (fun _ => 1) (fun _ => 0)
    (by intro r hr; exact absurd hr (List.not_mem_nil r)) rfl).2.1

/-- C10: two valid requests sharing an idempotency key but differing in
amount, currency, or userId: the second submission returns the originally
stored record's `paymentId`, `status`, `amount` and `currency` (the response
is built from the stored record `q`, whose fields come from the first
request), no mismatch error is reported (`.ok`), and the store state is
returned unchanged. -/
theorem C10_mismatched_fields_ignored (db : DB) (req1 req2 : CreatePaymentRequest)
    (draws1 draws2 : Nat → ℚ) (hWF : DBWF db)
    (hv1 : validatePaymentRequest req1 = none) (hv2 : validatePaymentRequest req2 = none)
    (hk : findByKey db.rows req1.IdempotencyKey = none)
    (hkey : req2.IdempotencyKey = req1.IdempotencyKey)
    (hdiff : req2.Amount ≠ req1.Amount ∨ req2.Currency ≠ req1.Currency ∨
      req2.UserID ≠ req1.UserID) :
    ∃ q : Payment,
      q.Amount = req1.Amount ∧ q.Currency = req1.Currency ∧ q.UserID = req1.UserID
      ∧ findByKey (CreatePayment paymentRepo draws1 req1 db).2.rows req1.IdempotencyKey = some q
      ∧ CreatePayment paymentRepo draws2 req2 (CreatePayment paymentRepo draws1 req1 db).2 =
          (.ok (toPaymentResponse q), (CreatePayment paymentRepo draws1 req1 db).2) := by
  obtain ⟨q, hq, hqid, hqkey, hqam, hqcur, hquid, _, _, _, _⟩ :=
    createPayment_fresh db req1 draws1 hWF hv1 hk
  rw [hq]
  have hk2 : findByKey (db.rows ++ [q]) req1.IdempotencyKey = some q :=
    findByKey_append_fresh db.rows q req1.IdempotencyKey hk hqkey
  have hlk2 : paymentRepo.getByIdempotencyKey req2.IdempotencyKey
      { rows := db.rows ++ [q], nextId := db.nextId + 1, clock := db.clock + 2 } =
      (.ok (some q), { rows := db.rows ++ [q], nextId := db.nextId + 1, clock := db.clock + 2 }) := by
    rw [paymentRepo_lookup, hkey]
    simp [hk2]
  exact ⟨q, hqam, hqcur, hquid, hk2,
    createPayment_found paymentRepo draws2 req2 _ _ q hv2 hlk2⟩

/-- Witness for C10: re-submitting key `k1` with a different amount,
currency and user returns the original record untouched. -/
theorem C10_witness :
    ∃ q : Payment,
      q.Amount = 10000 ∧ q.Currency = "INR" ∧ q.UserID = "u1"
      ∧ findByKey (CreatePayment paymentRepo (fun _ => 1) reqK1 emptyDB).2.rows "k1" = some q
      ∧ CreatePayment paymentRepo (fun _ => 1) ⟨"k1", 999, "USD", "u2"⟩
          (CreatePayment paymentRepo (fun _ => 1) reqK1 emptyDB).2 =
          (.ok (toPaymentResponse q), (CreatePayment paymentRepo (fun _ => 1) reqK1 emptyDB).2) :=
  C10_mismatched_fields_ignored emptyDB reqK1 ⟨"k1", 999, "USD", "u2"⟩
    (fun _ => 1) (fun _ => 1)
    (by intro r hr; exact absurd hr (List.not_mem_nil r)) rfl rfl rfl rfl
    (by decide)

/-- C7: a record with terminal status stored in a well-formed store is left
verbatim (same id, same status and all other fields) by every `CreatePayment`
call — with the same or a different key, including the retry loop and its
updates — and `GetPayment` never changes the store at all. -/
theorem C7_terminal_immutability :
    (∀ (db : DB) (req : CreatePaymentRequest) (draws : Nat → ℚ) (i : UUID) (r : Payment),
        DBWF db → findByID db.rows i = some r →
        (r.Status = .StatusSuccess ∨ r.Status = .StatusFailed) →
        findByID (CreatePayment paymentRepo draws req db).2.rows i = some r)
    ∧ (∀ (db : DB) (pid : String), (GetPayment paymentRepo pid db).2 = db) := by
  constructor
  · intro db req draws i r hWF hfind hterm
    cases hval : validatePaymentRequest req with
    | some e =>
      rw [createPayment_validation_fail paymentRepo draws req db e hval]
      exact hfind
    | none =>
      cases hfk : findByKey db.rows req.IdempotencyKey with
      | some q =>
        have hlk : paymentRepo.getByIdempotencyKey req.IdempotencyKey db =
            (.ok (some q), db) := by
          rw [paymentRepo_lookup, hfk]
        rw [createPayment_found paymentRepo draws req db db q hval hlk]
        exact hfind
      | none =>
        obtain ⟨q, hq, _, _, _, _, _, _, _, _, _⟩ :=
          createPayment_fresh db req draws hWF hval hfk
        rw [hq]
        show findByID (db.rows ++ [q]) i = some r
        unfold findByID at hfind ⊢
        rw [List.find?_append, hfind]
        rfl
  · intro db pid
    exact getPayment_pure db pid

/-- Witness for C7: a stored `Success` record survives a fresh submission
that exercises the full retry-and-persist path. -/
theorem C7_witness :
    findByID (CreatePayment paymentRepo (fun _ => 0) reqK1 termDB).2.rows ⟨1⟩ =
      some { ID := ⟨1⟩, UserID := "u7", Amount := 5, Currency := "EUR",
             Status := .StatusSuccess, IdempotencyKey := "kT", RetryCount := 1,
             FailureReason := "", CreatedAt := 0, UpdatedAt := 0 }
    ∧ (GetPayment paymentRepo "zz" termDB).2 = termDB :=
  ⟨C7_terminal_immutability.1 termDB reqK1 (fun _ => 0) ⟨1⟩ _
     (by intro r hr; rcases List.mem_singleton.mp hr with rfl; decide) rfl (.inl rfl),
   C7_terminal_immutability.2 termDB "zz"⟩

/-- C8: an identifier that does not parse is rejected by `GetPayment` with
the invalid-format error before any repository access (the conclusion holds
for every repository) and that error is distinct from not-found; a
well-formed identifier with no stored record yields the not-found error,
distinct from every storage-fault error. -/
theorem C8_fetch_errors :
    (∀ (σ : Type) (repo : PaymentRepository σ) (s : σ) (pid : String),
        uuidParse pid = none → GetPayment repo pid s = (.error .invalidIDFormat, s))
    ∧ ServiceError.invalidIDFormat ≠ ServiceError.notFound
    ∧ (∀ (db : DB) (pid : String) (u : UUID),
        uuidParse pid = some u → findByID db.rows u = none →
        GetPayment paymentRepo pid db = (.error .notFound, db))
    ∧ (∀ msg : String, ServiceError.notFound ≠ ServiceError.storageFault msg) := by
  refine ⟨?_, by decide, ?_, ?_⟩
  · intro σ repo s pid hp
    exact getPayment_malformed repo pid s hp
  · intro db pid u hp hu
    exact getPayment_notFound db pid u hp hu
  · intro msg h
    exact ServiceError.noConfusion h

/-- Witness for C8: a malformed and an unknown identifier on the empty
store. -/
theorem C8_witness :
    uuidParse "not-a-uuid" = none
    ∧ GetPayment paymentRepo "not-a-uuid" emptyDB = (.error .invalidIDFormat, emptyDB)
    ∧ uuidParse "00000000-0000-0000-0000-000000000000" = some ⟨0⟩
    ∧ GetPayment paymentRepo "00000000-0000-0000-0000-000000000000" emptyDB =
        (.error .notFound, emptyDB) :=
  ⟨rfl,
   C8_fetch_errors.1 DB paymentRepo emptyDB "not-a-uuid" rfl,
   rfl,
   C8_fetch_errors.2.2.1 emptyDB "00000000-0000-0000-0000-000000000000" ⟨0⟩ rfl rfl⟩

end PaymentService
